import Mathlib

/-!
Verification of the request/response translation layer of the mcp-messagebird
repository (a TypeScript MCP server wrapping the MessageBird Conversations API).

Shallow embedding conventions:
* JavaScript objects are modelled as ordered association lists
  (`List (String × Json)`), matching JS insertion-order semantics; property
  assignment is `objSet` (replace in place or append) and `delete` is
  `objDelete`.
* A JS value that may be `undefined` (an optional input) is modelled as
  `Option _`; JS truthiness of an optional string (`if (x)`) is `truthyStr`
  (absent and the empty string are both falsy).
* `fetch` and the network are external: `apiRequest`'s response
  classification (src/client.ts lines 56-81) is modelled as the pure function
  `classifyResponse` over the response's status code, status text, and the
  best-effort JSON parse of its body (`Option Json`, `none` = parse failure);
  URL construction (lines 33-44) is `apiRequestUrl`.
* A tool handler's interaction with `apiRequest` is modelled by passing the
  dispatch outcome as a function `RequestSpec → Except String Json`; a thrown
  failure (MessageBirdApiError or a network-level error) is `.error` carrying
  the error's `message` string.
-/

/-- JSON-like values built by the tool handlers. `undef` models a JS object
property whose value is `undefined` (such a property is dropped by
`JSON.stringify`). `num` models a JS number by its canonical JS string
representation (the result of JS ToString on it; `-0` also prints `0`, so
`num "0"` stands for both zeros): no claim depends on numeric values, and
carrying the printed form keeps string coercion and truthiness of numbers
exact instead of re-deriving JS float formatting. -/
inductive Json where
  | str (s : String)
  | num (r : String)
  | bool (b : Bool)
  | undef
  | arr (elems : List Json)
  | obj (fields : List (String × Json))

/-- Property lookup on a modelled JS object (first matching key). -/
def jget (o : List (String × Json)) (k : String) : Option Json :=
  (o.find? (fun p => p.1 == k)).map Prod.snd

/-- JS property assignment `o[k] = v`: replaces the value in place when the
key exists, otherwise appends the new property. -/
def objSet (o : List (String × Json)) (k : String) (v : Json) : List (String × Json) :=
  if o.any (fun p => p.1 == k) then o.map (fun p => if p.1 == k then (k, v) else p)
  else o ++ [(k, v)]

/-- JS `delete o[k]`. -/
def objDelete (o : List (String × Json)) (k : String) : List (String × Json) :=
  o.filter (fun p => p.1 != k)

/-- JS truthiness of an optional string: `undefined` and `""` are falsy. -/
def truthyStr : Option String → Bool
  | none => false
  | some s => s != ""

/-- The check `parameters && parameters.length > 0` on an optional array. -/
def hasParams : Option (List String) → Bool
  | some (_ :: _) => true
  | _ => false

/-- A possibly-undefined string value placed into an object property. -/
def jsOptStr : Option String → Json
  | some s => Json.str s
  | none => Json.undef

/-- A possibly-undefined numeric value (carried as its canonical JS string
representation, see `Json.num`) placed into an object property. -/
def jsOptNum : Option String → Json
  | some r => Json.num r
  | none => Json.undef

mutual

/-- JS string coercion (ToString) of a JSON-like value, as performed by the
template literal of src/client.ts line 76: strings stay, numbers print
their canonical representation (carried by `num`), booleans print
`true`/`false`, `undefined` prints `undefined`, arrays print as
`Array.prototype.toString` (elements coerced and joined with `,`,
`undefined` elements becoming empty), plain objects print
`[object Object]`. -/
def jsToString : Json → String
  | Json.str s => s
  | Json.num r => r
  | Json.bool b => if b then "true" else "false"
  | Json.undef => "undefined"
  | Json.arr elems => jsToStringList elems
  | Json.obj _ => "[object Object]"

/-- The `,`-join of `Array.prototype.toString` over the coerced elements. -/
def jsToStringList : List Json → String
  | [] => ""
  | [Json.undef] => ""
  | [x] => jsToString x
  | Json.undef :: x :: xs => "," ++ jsToStringList (x :: xs)
  | x :: y :: xs => jsToString x ++ "," ++ jsToStringList (y :: xs)

end

/-- The three logical API targets of src/client.ts (`type ApiTarget`). -/
inductive ApiTarget where
  | conversations
  | integrations
  | rest
  deriving DecidableEq

/-- HTTP methods accepted by `apiRequest`. -/
inductive Method where
  | GET
  | POST
  | PUT
  | PATCH
  | DELETE
  deriving DecidableEq

/-- The request issued by `apiRequest`: endpoint path, method, optional JSON
body, optional query parameters and the base-URL target. -/
structure RequestSpec where
  endpoint : String
  method : Method
  body : Option Json
  queryParams : Option (List (String × Option String))
  target : ApiTarget

/-- Characters serialized verbatim by the application/x-www-form-urlencoded
serializer used by `URLSearchParams.toString()`. -/
def formUnreserved (c : Char) : Bool :=
  c.isAlphanum || c = '*' || c = '-' || c = '.' || c = '_'

/-- Uppercase hexadecimal digit. -/
def hexDigit (n : Nat) : Char :=
  if n < 10 then Char.ofNat (48 + n) else Char.ofNat (55 + n)

/-- UTF-8 byte sequence of a character. -/
def utf8Bytes (c : Char) : List Nat :=
  let n := c.toNat
  if n < 128 then [n]
  else if n < 2048 then [192 + n / 64, 128 + n % 64]
  else if n < 65536 then [224 + n / 4096, 128 + n / 64 % 64, 128 + n % 64]
  else [240 + n / 262144, 128 + n / 4096 % 64, 128 + n / 64 % 64, 128 + n % 64]

/-- Percent-encoding of one byte. -/
def pctByte (b : Nat) : List Char :=
  ['%', hexDigit (b / 16 % 16), hexDigit (b % 16)]

/-- Per-character form encoding: unreserved characters kept, space becomes
`+`, everything else percent-encoded bytewise. -/
def formEncodeChar (c : Char) : List Char :=
  if formUnreserved c then [c]
  else if c = ' ' then ['+']
  else (utf8Bytes c).flatMap pctByte

/-- application/x-www-form-urlencoded serialization of one string. -/
def formEncode (s : String) : String :=
  String.mk (s.data.flatMap formEncodeChar)

/-- `URLSearchParams.set`: replaces the first entry with a matching key
(removing any later duplicates), otherwise appends. -/
def setParam : List (String × String) → String → String → List (String × String)
  | [], k, v => [(k, v)]
  | p :: ps, k, v =>
    if p.1 = k then (k, v) :: ps.filter (fun q => q.1 ≠ k)
    else p :: setParam ps k v

/-- One iteration of the query-parameter loop of src/client.ts lines 37-41:
`if (value !== undefined && value !== "") params.set(key, value)`. -/
def buildStep (ps : List (String × String)) (kv : String × Option String) : List (String × String) :=
  match kv.2 with
  | some v => if v ≠ "" then setParam ps kv.1 v else ps
  | none => ps

/-- The populated `URLSearchParams` after iterating `Object.entries(queryParams)`. -/
def buildParams (entries : List (String × Option String)) : List (String × String) :=
  entries.foldl buildStep []

/-- `URLSearchParams.toString()`: the `&`-joined list of `key=value` pairs,
each side form-encoded. -/
def paramsToString : List (String × String) → String
  | [] => ""
  | [kv] => formEncode kv.1 ++ "=" ++ formEncode kv.2
  | kv :: rest => formEncode kv.1 ++ "=" ++ formEncode kv.2 ++ "&" ++ paramsToString rest

/-- URL construction of src/client.ts lines 33-44: base + endpoint, then
`?` + query string only when the serialized filtered params are non-empty. -/
def apiRequestUrl (base endpoint : String) (queryParams : Option (List (String × Option String))) : String :=
  let url := base ++ endpoint
  match queryParams with
  | none => url
  | some entries =>
    let qs := paramsToString (buildParams entries)
    if qs ≠ "" then url ++ "?" ++ qs else url

/-- A tool call's result (src/client.ts 83-96): `toolResult` wraps a success
payload, `toolError` is the error-flagged shape carrying a message. The
text-serialization of the payload is not modelled; the discriminated shape
and the message are. -/
inductive ToolOutcome where
  | result (data : Json)
  | error (message : String)

/-- `toolResult(data)` of src/client.ts. -/
def toolResult (data : Json) : ToolOutcome :=
  ToolOutcome.result data

/-- `toolError(message)` of src/client.ts. -/
def toolError (message : String) : ToolOutcome :=
  ToolOutcome.error message

/-! ## Messaging handlers (src/tools/messaging.ts) -/

/-- Request body built by the `send_text` handler (messaging.ts 32-46). -/
def sendTextBody (to_ frm text : String) (disable_url_preview : Option Bool)
    (report_url : Option String) : List (String × Json) :=
  let body := [("to", Json.str to_), ("from", Json.str frm), ("type", Json.str "text"),
    ("content", Json.obj ([("text", Json.str text)] ++
      (match disable_url_preview with
       | some b => [("disableUrlPreview", Json.bool b)]
       | none => [])))]
  if truthyStr report_url then objSet body "reportUrl" (Json.str (report_url.getD "")) else body

/-- The `send_text` handler (messaging.ts 32-52): posts the body to `/send`
and wraps the outcome. -/
def sendTextHandler (to_ frm text : String) (disable_url_preview : Option Bool)
    (report_url : Option String) (dispatch : RequestSpec → Except String Json) : ToolOutcome :=
  match dispatch ⟨"/send", Method.POST,
      some (Json.obj (sendTextBody to_ frm text disable_url_preview report_url)),
      none, ApiTarget.conversations⟩ with
  | Except.ok data => toolResult data
  | Except.error e => toolError ("Failed to send text message: " ++ e)

/-- The media object built by the `send_media` handler (messaging.ts 79-82):
`{ url }` plus `caption` only when the caption is truthy and the media type
is not audio. -/
def sendMediaMedia (media_type media_url : String) (caption : Option String) : List (String × Json) :=
  let mediaContent := [("url", Json.str media_url)]
  if truthyStr caption && media_type != "audio" then
    objSet mediaContent "caption" (Json.str (caption.getD ""))
  else mediaContent

/-- Request body of the `send_media` handler (messaging.ts 84-89). -/
def sendMediaBody (to_ frm media_type media_url : String) (caption : Option String) : List (String × Json) :=
  [("to", Json.str to_), ("from", Json.str frm), ("type", Json.str media_type),
   ("content", Json.obj [(media_type, Json.obj (sendMediaMedia media_type media_url caption))])]

/-- The `send_media` handler (messaging.ts 77-94). -/
def sendMediaHandler (to_ frm media_type media_url : String) (caption : Option String)
    (dispatch : RequestSpec → Except String Json) : ToolOutcome :=
  match dispatch ⟨"/send", Method.POST,
      some (Json.obj (sendMediaBody to_ frm media_type media_url caption)),
      none, ApiTarget.conversations⟩ with
  | Except.ok data => toolResult data
  | Except.error e => toolError ("Failed to send media message: " ++ e)

/-- The `hsm` object built by the `send_template` handler
(messaging.ts 194-248): the simple `params` field is set only when the
parameters are non-empty and no media-header URL and no button suffix is
truthy; the `components` array gets a header block (image, else video, else
document), then a body block only when parameters are non-empty AND a header
block was already pushed, then a button block for a truthy suffix; when any
component exists, `components` is assigned and `params` deleted. -/
def buildHsm (namespace_ template_name language_code : String)
    (parameters : Option (List String))
    (header_image_url header_video_url header_document_url button_url_suffix : Option String) :
    List (String × Json) :=
  let hsm := [("namespace", Json.str namespace_), ("templateName", Json.str template_name),
    ("language", Json.obj [("policy", Json.str "deterministic"), ("code", Json.str language_code)])]
  let hsm :=
    if hasParams parameters && !truthyStr header_image_url && !truthyStr header_video_url &&
        !truthyStr header_document_url && !truthyStr button_url_suffix then
      objSet hsm "params"
        (Json.arr ((parameters.getD []).map (fun p => Json.obj [("default", Json.str p)])))
    else hsm
  let components : List Json :=
    if truthyStr header_image_url then
      [Json.obj [("type", Json.str "header"),
        ("parameters", Json.arr [Json.obj [("type", Json.str "image"),
          ("image", Json.obj [("url", Json.str (header_image_url.getD ""))])]])]]
    else if truthyStr header_video_url then
      [Json.obj [("type", Json.str "header"),
        ("parameters", Json.arr [Json.obj [("type", Json.str "video"),
          ("video", Json.obj [("url", Json.str (header_video_url.getD ""))])]])]]
    else if truthyStr header_document_url then
      [Json.obj [("type", Json.str "header"),
        ("parameters", Json.arr [Json.obj [("type", Json.str "document"),
          ("document", Json.obj [("url", Json.str (header_document_url.getD ""))])]])]]
    else []
  let components :=
    if hasParams parameters && components.length > 0 then
      components ++ [Json.obj [("type", Json.str "body"),
        ("parameters", Json.arr ((parameters.getD []).map
          (fun p => Json.obj [("type", Json.str "text"), ("text", Json.str p)])))]]
    else components
  let components :=
    if truthyStr button_url_suffix then
      components ++ [Json.obj [("type", Json.str "button"), ("sub_type", Json.str "url"),
        ("parameters", Json.arr [Json.obj [("type", Json.str "text"),
          ("text", Json.str (button_url_suffix.getD ""))]])]]
    else components
  if components.length > 0 then
    let hsm := objSet hsm "components" (Json.arr components)
    if hasParams parameters then objDelete hsm "params" else hsm
  else hsm

/-- The `send_template` handler (messaging.ts 181-260). -/
def sendTemplateHandler (to_ frm namespace_ template_name language_code : String)
    (parameters : Option (List String))
    (header_image_url header_video_url header_document_url button_url_suffix : Option String)
    (dispatch : RequestSpec → Except String Json) : ToolOutcome :=
  match dispatch ⟨"/send", Method.POST,
      some (Json.obj [("to", Json.str to_), ("from", Json.str frm), ("type", Json.str "hsm"),
        ("content", Json.obj [("hsm", Json.obj (buildHsm namespace_ template_name language_code
          parameters header_image_url header_video_url header_document_url button_url_suffix))])]),
      none, ApiTarget.conversations⟩ with
  | Except.ok data => toolResult data
  | Except.error e => toolError ("Failed to send template message: " ++ e)

/-- The `interactive` object built by the `send_interactive_buttons` handler
(messaging.ts 296-317): header is text when `header_text` is truthy, else
image when `header_image_url` is truthy; footer only when truthy. -/
def sendInteractiveButtonsInteractive (body_text : String) (buttons : List (String × String))
    (header_text header_image_url footer_text : Option String) : List (String × Json) :=
  let interactive := [("type", Json.str "button"),
    ("body", Json.obj [("text", Json.str body_text)]),
    ("action", Json.obj [("buttons", Json.arr (buttons.map (fun b =>
      Json.obj [("id", Json.str b.1), ("type", Json.str "reply"), ("title", Json.str b.2)])))])]
  let interactive :=
    if truthyStr header_text then
      objSet interactive "header"
        (Json.obj [("type", Json.str "text"), ("text", Json.str (header_text.getD ""))])
    else if truthyStr header_image_url then
      objSet interactive "header"
        (Json.obj [("type", Json.str "image"),
          ("image", Json.obj [("url", Json.str (header_image_url.getD ""))])])
    else interactive
  if truthyStr footer_text then
    objSet interactive "footer" (Json.obj [("text", Json.str (footer_text.getD ""))])
  else interactive

/-! ## Conversation handlers (src/tools/conversations.ts) -/

/-- The media object of the `reply_to_conversation` media branch
(conversations.ts 207-208): `{ url: media_url }` (possibly undefined), with
`caption` added only when truthy and the type is not audio. -/
def replyMedia (ty : String) (media_url : Option String) (caption : Option String) : List (String × Json) :=
  let media := [("url", jsOptStr media_url)]
  if truthyStr caption && ty != "audio" then
    objSet media "caption" (Json.str (caption.getD ""))
  else media

/-- The `switch (type)` of the `reply_to_conversation` handler
(conversations.ts 199-217), producing the content object or the
`Unsupported message type` early error result. The handler is only invoked
with the six schema-permitted type strings; the default branch is kept to
model the source faithfully. -/
def replyBuildContent (ty : String) (text media_url caption : Option String)
    (latitude longitude : Option String) : Except String Json :=
  if ty = "text" then Except.ok (Json.obj [("text", Json.str (text.getD ""))])
  else if ty = "image" ∨ ty = "video" ∨ ty = "audio" ∨ ty = "file" then
    Except.ok (Json.obj [(ty, Json.obj (replyMedia ty media_url caption))])
  else if ty = "location" then
    Except.ok (Json.obj [("location",
      Json.obj [("latitude", jsOptNum latitude), ("longitude", jsOptNum longitude)])])
  else Except.error ("Unsupported message type: " ++ ty)

/-- The request assembled by `reply_to_conversation` (conversations.ts
219-226): body `{type, content}` plus `channelId` when truthy, posted to the
conversation's messages endpoint; an unsupported type short-circuits with
the early error result instead. -/
def replyToConversationRequest (conversation_id ty : String)
    (text media_url caption : Option String) (latitude longitude : Option String)
    (channel_id : Option String) : Except String RequestSpec :=
  match replyBuildContent ty text media_url caption latitude longitude with
  | Except.error e => Except.error e
  | Except.ok content =>
    let body := [("type", Json.str ty), ("content", content)]
    let body := if truthyStr channel_id then objSet body "channelId" (Json.str (channel_id.getD "")) else body
    Except.ok ⟨"/conversations/" ++ conversation_id ++ "/messages", Method.POST,
      some (Json.obj body), none, ApiTarget.conversations⟩

/-- The `reply_to_conversation` handler (conversations.ts 186-231): the
unsupported-type branch returns its `toolError` directly (without the
operation prefix); dispatch failures are caught with the
`Failed to reply to conversation` prefix. -/
def replyToConversationHandler (conversation_id ty : String)
    (text media_url caption : Option String) (latitude longitude : Option String)
    (channel_id : Option String) (dispatch : RequestSpec → Except String Json) : ToolOutcome :=
  match replyToConversationRequest conversation_id ty text media_url caption latitude longitude channel_id with
  | Except.error e => toolError e
  | Except.ok spec =>
    match dispatch spec with
    | Except.ok data => toolResult data
    | Except.error e => toolError ("Failed to reply to conversation: " ++ e)

/-! ## Contact handlers (src/tools/contacts.ts) -/

/-- Request body built by the `create_contact` handler (contacts.ts 115-121):
`{ msisdn }` plus each optional field only when truthy. -/
def createContactBody (msisdn : String)
    (first_name last_name custom1 custom2 custom3 custom4 : Option String) : List (String × Json) :=
  let body := [("msisdn", Json.str msisdn)]
  let body := if truthyStr first_name then objSet body "firstName" (Json.str (first_name.getD "")) else body
  let body := if truthyStr last_name then objSet body "lastName" (Json.str (last_name.getD "")) else body
  let body := if truthyStr custom1 then objSet body "custom1" (Json.str (custom1.getD "")) else body
  let body := if truthyStr custom2 then objSet body "custom2" (Json.str (custom2.getD "")) else body
  let body := if truthyStr custom3 then objSet body "custom3" (Json.str (custom3.getD "")) else body
  if truthyStr custom4 then objSet body "custom4" (Json.str (custom4.getD "")) else body

/-- The `create_contact` handler (contacts.ts 113-128): posts to `/contacts`
on the rest target. -/
def createContactHandler (msisdn : String)
    (first_name last_name custom1 custom2 custom3 custom4 : Option String)
    (dispatch : RequestSpec → Except String Json) : ToolOutcome :=
  match dispatch ⟨"/contacts", Method.POST,
      some (Json.obj (createContactBody msisdn first_name last_name custom1 custom2 custom3 custom4)),
      none, ApiTarget.rest⟩ with
  | Except.ok data => toolResult data
  | Except.error e => toolError ("Failed to create contact: " ++ e)

/-! ## Template handlers (build/tools/templates.js) -/

/-- Left brace character (written via its code point). -/
def lbrace : Char := Char.ofNat 123

/-- Right brace character (written via its code point). -/
def rbrace : Char := Char.ofNat 125

/-- Match attempt of the regex `/\x7b\x7b\d+\x7d\x7d/` at the head of the
character list: two braces, one or more digits, two braces; on success
returns the characters remaining after the matched token. -/
def matchPh : List Char → Option (List Char)
  | c1 :: c2 :: rest =>
    if c1 = lbrace ∧ c2 = lbrace then
      match rest.takeWhile Char.isDigit, rest.dropWhile Char.isDigit with
      | [], _ => none
      | _ :: _, d1 :: d2 :: rest3 =>
        if d1 = rbrace ∧ d2 = rbrace then some rest3 else none
      | _ :: _, _ => none
    else none
  | _ => none

/-- The fixed placeholder string substituted into generated button examples
(templates.js line 151). -/
def exampleValue : String := "example_value"

/-- Left-to-right global regex replacement: at each position try the
placeholder match; on success emit the replacement and continue after the
match, otherwise keep the character. The fuel argument (instantiated with
the list length, an upper bound on the number of steps since every step
consumes at least one character) makes the recursion structural. -/
def replaceGo : Nat → List Char → List Char
  | 0, _ => []
  | _, [] => []
  | fuel + 1, c :: cs =>
    match matchPh (c :: cs) with
    | some rest => exampleValue.data ++ replaceGo fuel rest
    | none => c :: replaceGo fuel cs

/-- `button_value.replace(/\x7b\x7b\d+\x7d\x7d/g, "example_value")` of
templates.js line 151. -/
def replacePlaceholders (s : String) : String :=
  String.mk (replaceGo s.data.length s.data)

/-- `button_value.includes("\x7b\x7b")` of templates.js line 149. -/
def containsBB : List Char → Bool
  | c1 :: c2 :: rest => (c1 = lbrace && c2 = lbrace) || containsBB (c2 :: rest)
  | _ => false

/-- The components array assembled by the `create_template` handler
(templates.js 110-159): optional header (TEXT carries inline text, otherwise
an example media URL), required body (with optional nested example values),
optional footer, optional single-button block; a URL button whose value
contains two consecutive braces additionally carries a generated example. -/
def createTemplateComponents (body_text : String)
    (header_type header_text header_example_url footer_text : Option String)
    (button_type button_text button_value : Option String)
    (body_examples : Option (List String)) : List Json :=
  let headerComps : List Json :=
    if truthyStr header_type then
      let header := [("type", Json.str "HEADER"), ("format", Json.str (header_type.getD ""))]
      let header :=
        if header_type.getD "" = "TEXT" && truthyStr header_text then
          objSet header "text" (Json.str (header_text.getD ""))
        else if truthyStr header_example_url then
          objSet header "example"
            (Json.obj [("header_url", Json.arr [Json.str (header_example_url.getD "")])])
        else header
      [Json.obj header]
    else []
  let body := [("type", Json.str "BODY"), ("text", Json.str body_text)]
  let body :=
    match body_examples with
    | some exs =>
      if exs.length > 0 then
        objSet body "example" (Json.obj [("body_text", Json.arr [Json.arr (exs.map Json.str)])])
      else body
    | none => body
  let footerComps : List Json :=
    if truthyStr footer_text then
      [Json.obj [("type", Json.str "FOOTER"), ("text", Json.str (footer_text.getD ""))]]
    else []
  let buttonComps : List Json :=
    if truthyStr button_type && truthyStr button_text then
      let bt := button_type.getD ""
      let bv := button_value.getD ""
      let button := [("type", Json.str bt), ("text", Json.str (button_text.getD ""))]
      let button :=
        if bt = "PHONE_NUMBER" && truthyStr button_value then
          objSet button "phone_number" (Json.str bv)
        else if bt = "URL" && truthyStr button_value then
          let b2 := objSet button "url" (Json.str bv)
          if containsBB bv.data then
            objSet b2 "example" (Json.arr [Json.str (replacePlaceholders bv)])
          else b2
        else button
      [Json.obj [("type", Json.str "BUTTONS"), ("buttons", Json.arr [Json.obj button])]]
    else []
  headerComps ++ [Json.obj body] ++ footerComps ++ buttonComps

/-- The `update_template` handler (templates.js 199-220). `JSON.parse` of the
`components` string input is modelled by its outcome (`none` = the parse
threw, caught by the inner try/catch which short-circuits with the fixed
unprefixed error message). -/
def updateTemplateHandler (name language waba_id : String) (parsedComponents : Option Json)
    (category : Option String) (dispatch : RequestSpec → Except String Json) : ToolOutcome :=
  match parsedComponents with
  | none => toolError "Invalid JSON in components parameter"
  | some pc =>
    let body := [("wabaId", Json.str waba_id), ("components", pc)]
    let body := if truthyStr category then objSet body "category" (Json.str (category.getD "")) else body
    match dispatch ⟨"/v2/platforms/whatsapp/templates/" ++ name ++ "/" ++ language, Method.PUT,
        some (Json.obj body), none, ApiTarget.integrations⟩ with
    | Except.ok data => toolResult data
    | Except.error e => toolError ("Failed to update template: " ++ e)


/-! ## Remaining tool handlers

The claims about the handler boundary quantify over every tool the server
registers; the remaining handlers are modelled below in registration order
(messaging, conversations, contacts, templates), each as its source file
writes it: build the request, dispatch, wrap the outcome in the uniform
try/catch with the handler's static message prefix. -/

/-- Request body built by the `send_location` handler (messaging.ts
117-128): `{latitude, longitude}` plus `name`/`address` when truthy. -/
def sendLocationBody (to_ frm latitude longitude : String)
    (name address : Option String) : List (String × Json) :=
  let location := [("latitude", Json.num latitude), ("longitude", Json.num longitude)]
  let location := if truthyStr name then objSet location "name" (Json.str (name.getD "")) else location
  let location := if truthyStr address then objSet location "address" (Json.str (address.getD "")) else location
  [("to", Json.str to_), ("from", Json.str frm), ("type", Json.str "location"),
   ("content", Json.obj [("location", Json.obj location)])]

/-- The `send_location` handler (messaging.ts 117-133). -/
def sendLocationHandler (to_ frm latitude longitude : String) (name address : Option String)
    (dispatch : RequestSpec → Except String Json) : ToolOutcome :=
  match dispatch ⟨"/send", Method.POST,
      some (Json.obj (sendLocationBody to_ frm latitude longitude name address)),
      none, ApiTarget.conversations⟩ with
  | Except.ok data => toolResult data
  | Except.error e => toolError ("Failed to send location: " ++ e)

/-- The `send_interactive_buttons` handler (messaging.ts 294-329). -/
def sendInteractiveButtonsHandler (to_ frm body_text : String)
    (buttons : List (String × String)) (header_text header_image_url footer_text : Option String)
    (dispatch : RequestSpec → Except String Json) : ToolOutcome :=
  match dispatch ⟨"/send", Method.POST,
      some (Json.obj [("to", Json.str to_), ("from", Json.str frm),
        ("type", Json.str "interactive"),
        ("content", Json.obj [("interactive", Json.obj
          (sendInteractiveButtonsInteractive body_text buttons header_text header_image_url footer_text))])]),
      none, ApiTarget.conversations⟩ with
  | Except.ok data => toolResult data
  | Except.error e => toolError ("Failed to send interactive buttons: " ++ e)

/-- The `interactive` object built by the `send_interactive_list` handler
(messaging.ts 377-386); the schema-validated `sections` array is passed
through verbatim, so it is taken here as an already-built JSON value. -/
def sendInteractiveListInteractive (body_text button_label : String) (sections : Json)
    (header_text footer_text : Option String) : List (String × Json) :=
  let interactive := [("type", Json.str "list"),
    ("body", Json.obj [("text", Json.str body_text)]),
    ("action", Json.obj [("button", Json.str button_label), ("sections", sections)])]
  let interactive :=
    if truthyStr header_text then
      objSet interactive "header"
        (Json.obj [("type", Json.str "text"), ("text", Json.str (header_text.getD ""))])
    else interactive
  if truthyStr footer_text then
    objSet interactive "footer" (Json.obj [("text", Json.str (footer_text.getD ""))])
  else interactive

/-- The `send_interactive_list` handler (messaging.ts 375-398). -/
def sendInteractiveListHandler (to_ frm body_text button_label : String) (sections : Json)
    (header_text footer_text : Option String)
    (dispatch : RequestSpec → Except String Json) : ToolOutcome :=
  match dispatch ⟨"/send", Method.POST,
      some (Json.obj [("to", Json.str to_), ("from", Json.str frm),
        ("type", Json.str "interactive"),
        ("content", Json.obj [("interactive", Json.obj
          (sendInteractiveListInteractive body_text button_label sections header_text footer_text))])]),
      none, ApiTarget.conversations⟩ with
  | Except.ok data => toolResult data
  | Except.error e => toolError ("Failed to send interactive list: " ++ e)

/-- The `list_conversations` handler (conversations.ts 23-33). -/
def listConversationsHandler (offset limit : Option String)
    (dispatch : RequestSpec → Except String Json) : ToolOutcome :=
  match dispatch ⟨"/conversations", Method.GET, none,
      some [("offset", offset), ("limit", limit)], ApiTarget.conversations⟩ with
  | Except.ok data => toolResult data
  | Except.error e => toolError ("Failed to list conversations: " ++ e)

/-- The `get_conversation` handler (conversations.ts 51-58). -/
def getConversationHandler (conversation_id : String)
    (dispatch : RequestSpec → Except String Json) : ToolOutcome :=
  match dispatch ⟨"/conversations/" ++ conversation_id, Method.GET, none, none,
      ApiTarget.conversations⟩ with
  | Except.ok data => toolResult data
  | Except.error e => toolError ("Failed to get conversation: " ++ e)

/-- The `update_conversation` handler (conversations.ts 79-90). -/
def updateConversationHandler (conversation_id status : String)
    (dispatch : RequestSpec → Except String Json) : ToolOutcome :=
  match dispatch ⟨"/conversations/" ++ conversation_id, Method.PATCH,
      some (Json.obj [("status", Json.str status)]), none, ApiTarget.conversations⟩ with
  | Except.ok data => toolResult data
  | Except.error e => toolError ("Failed to update conversation: " ++ e)

/-- The `list_conversation_messages` handler (conversations.ts 111-123). -/
def listConversationMessagesHandler (conversation_id : String) (offset limit : Option String)
    (dispatch : RequestSpec → Except String Json) : ToolOutcome :=
  match dispatch ⟨"/conversations/" ++ conversation_id ++ "/messages", Method.GET, none,
      some [("offset", offset), ("limit", limit)], ApiTarget.conversations⟩ with
  | Except.ok data => toolResult data
  | Except.error e => toolError ("Failed to list messages: " ++ e)

/-- The `get_message` handler (conversations.ts 142-151). -/
def getMessageHandler (conversation_id message_id : String)
    (dispatch : RequestSpec → Except String Json) : ToolOutcome :=
  match dispatch ⟨"/conversations/" ++ conversation_id ++ "/messages/" ++ message_id,
      Method.GET, none, none, ApiTarget.conversations⟩ with
  | Except.ok data => toolResult data
  | Except.error e => toolError ("Failed to get message: " ++ e)

/-- The `list_messages` handler (conversations.ts 251-261). -/
def listMessagesHandler (offset limit : Option String)
    (dispatch : RequestSpec → Except String Json) : ToolOutcome :=
  match dispatch ⟨"/messages", Method.GET, none,
      some [("offset", offset), ("limit", limit)], ApiTarget.conversations⟩ with
  | Except.ok data => toolResult data
  | Except.error e => toolError ("Failed to list messages: " ++ e)

/-- The `list_contacts` handler (contacts.ts 22-35). -/
def listContactsHandler (offset limit : Option String)
    (dispatch : RequestSpec → Except String Json) : ToolOutcome :=
  match dispatch ⟨"/contacts", Method.GET, none,
      some [("offset", offset), ("limit", limit)], ApiTarget.rest⟩ with
  | Except.ok data => toolResult data
  | Except.error e => toolError ("Failed to list contacts: " ++ e)

/-- The `get_contact` handler (contacts.ts 59-87): a truthy `contact_id`
takes the exact-fetch path; otherwise a filter mapping is built from the
truthy ones of `msisdn`/`name` and the list endpoint is queried. -/
def getContactHandler (contact_id msisdn name : Option String)
    (dispatch : RequestSpec → Except String Json) : ToolOutcome :=
  if truthyStr contact_id then
    match dispatch ⟨"/contacts/" ++ contact_id.getD "", Method.GET, none, none,
        ApiTarget.rest⟩ with
    | Except.ok data => toolResult data
    | Except.error e => toolError ("Failed to get contact: " ++ e)
  else
    let params : List (String × Option String) := []
    let params := if truthyStr msisdn then params ++ [("msisdn", msisdn)] else params
    let params := if truthyStr name then params ++ [("name", name)] else params
    match dispatch ⟨"/contacts", Method.GET, none, some params, ApiTarget.rest⟩ with
    | Except.ok data => toolResult data
    | Except.error e => toolError ("Failed to get contact: " ++ e)

/-- Request body built by the `update_contact` handler (contacts.ts
153-162): each field only when truthy. -/
def updateContactBody (msisdn first_name last_name custom1 custom2 custom3 custom4 : Option String) :
    List (String × Json) :=
  let body : List (String × Json) := []
  let body := if truthyStr msisdn then objSet body "msisdn" (Json.str (msisdn.getD "")) else body
  let body := if truthyStr first_name then objSet body "firstName" (Json.str (first_name.getD "")) else body
  let body := if truthyStr last_name then objSet body "lastName" (Json.str (last_name.getD "")) else body
  let body := if truthyStr custom1 then objSet body "custom1" (Json.str (custom1.getD "")) else body
  let body := if truthyStr custom2 then objSet body "custom2" (Json.str (custom2.getD "")) else body
  let body := if truthyStr custom3 then objSet body "custom3" (Json.str (custom3.getD "")) else body
  if truthyStr custom4 then objSet body "custom4" (Json.str (custom4.getD "")) else body

/-- The `update_contact` handler (contacts.ts 153-175). -/
def updateContactHandler (contact_id : String)
    (msisdn first_name last_name custom1 custom2 custom3 custom4 : Option String)
    (dispatch : RequestSpec → Except String Json) : ToolOutcome :=
  match dispatch ⟨"/contacts/" ++ contact_id, Method.PATCH,
      some (Json.obj (updateContactBody msisdn first_name last_name custom1 custom2 custom3 custom4)),
      none, ApiTarget.rest⟩ with
  | Except.ok data => toolResult data
  | Except.error e => toolError ("Failed to update contact: " ++ e)

/-- The `delete_contact` handler (contacts.ts 194-207): the response body is
discarded and a constructed `{deleted, id}` payload is returned. -/
def deleteContactHandler (contact_id : String)
    (dispatch : RequestSpec → Except String Json) : ToolOutcome :=
  match dispatch ⟨"/contacts/" ++ contact_id, Method.DELETE, none, none, ApiTarget.rest⟩ with
  | Except.ok _ => toolResult (Json.obj [("deleted", Json.bool true), ("id", Json.str contact_id)])
  | Except.error e => toolError ("Failed to delete contact: " ++ e)

/-- The `list_templates` handler (templates.js 19-32). -/
def listTemplatesHandler (offset limit waba_id channel_id : Option String)
    (dispatch : RequestSpec → Except String Json) : ToolOutcome :=
  match dispatch ⟨"/v3/platforms/whatsapp/templates", Method.GET, none,
      some [("offset", offset), ("limit", limit), ("wabaId", waba_id), ("channelId", channel_id)],
      ApiTarget.integrations⟩ with
  | Except.ok data => toolResult data
  | Except.error e => toolError ("Failed to list templates: " ++ e)

/-- The `get_template` handler (templates.js 46-54). -/
def getTemplateHandler (name language : String)
    (dispatch : RequestSpec → Except String Json) : ToolOutcome :=
  match dispatch ⟨"/v3/platforms/whatsapp/templates/" ++ name ++ "/" ++ language,
      Method.GET, none, none, ApiTarget.integrations⟩ with
  | Except.ok data => toolResult data
  | Except.error e => toolError ("Failed to get template: " ++ e)

/-- Request body built by the `create_template` handler (templates.js
160-170): name, language, category and the assembled components, plus
`wabaId` when truthy and `allowCategoryChange` when defined. -/
def createTemplateBody (name language category body_text : String)
    (header_type header_text header_example_url footer_text : Option String)
    (button_type button_text button_value : Option String)
    (body_examples : Option (List String)) (waba_id : Option String)
    (allow_category_change : Option Bool) : List (String × Json) :=
  let requestBody := [("name", Json.str name), ("language", Json.str language),
    ("category", Json.str category),
    ("components", Json.arr (createTemplateComponents body_text header_type header_text
      header_example_url footer_text button_type button_text button_value body_examples))]
  let requestBody :=
    if truthyStr waba_id then objSet requestBody "wabaId" (Json.str (waba_id.getD ""))
    else requestBody
  match allow_category_change with
  | some b => objSet requestBody "allowCategoryChange" (Json.bool b)
  | none => requestBody

/-- The `create_template` handler (templates.js 108-177). -/
def createTemplateHandler (name language category body_text : String)
    (header_type header_text header_example_url footer_text : Option String)
    (button_type button_text button_value : Option String)
    (body_examples : Option (List String)) (waba_id : Option String)
    (allow_category_change : Option Bool)
    (dispatch : RequestSpec → Except String Json) : ToolOutcome :=
  match dispatch ⟨"/v2/platforms/whatsapp/templates", Method.POST,
      some (Json.obj (createTemplateBody name language category body_text header_type header_text
        header_example_url footer_text button_type button_text button_value body_examples
        waba_id allow_category_change)),
      none, ApiTarget.integrations⟩ with
  | Except.ok data => toolResult data
  | Except.error e => toolError ("Failed to create template: " ++ e)

/-- The `delete_template` handler (templates.js 233-241). -/
def deleteTemplateHandler (name : String)
    (dispatch : RequestSpec → Except String Json) : ToolOutcome :=
  match dispatch ⟨"/v3/platforms/whatsapp/templates/" ++ name, Method.DELETE, none, none,
      ApiTarget.integrations⟩ with
  | Except.ok _ => toolResult (Json.obj [("deleted", Json.bool true), ("name", Json.str name)])
  | Except.error e => toolError ("Failed to delete template: " ++ e)

/-- The `delete_template_variant` handler (templates.js 255-263). -/
def deleteTemplateVariantHandler (name language : String)
    (dispatch : RequestSpec → Except String Json) : ToolOutcome :=
  match dispatch ⟨"/v3/platforms/whatsapp/templates/" ++ name ++ "/" ++ language,
      Method.DELETE, none, none, ApiTarget.integrations⟩ with
  | Except.ok _ => toolResult (Json.obj [("deleted", Json.bool true), ("name", Json.str name),
      ("language", Json.str language)])
  | Except.error e => toolError ("Failed to delete template variant: " ++ e)

/-! ## Claim theorems -/

/-- C1: evaluation of the `send_template` builder at an input with a button
suffix, no media header, and a non-empty parameters list. The claim (and the
spec) say the components shape then carries the body parameters as a typed
body block; the code instead pushes the body block only when a header block
is already present (`components.length > 0` is tested before the button is
appended), so the parameters are dropped entirely: the final hsm has no
`params` field and its `components` array holds only the button block. -/
theorem c1_body_params_dropped :
    jget (buildHsm "ns-uuid" "order_update" "en" (some ["John"]) none none none (some "promo"))
      "params" = none ∧
    jget (buildHsm "ns-uuid" "order_update" "en" (some ["John"]) none none none (some "promo"))
      "components" =
      some (Json.arr [Json.obj [("type", Json.str "button"), ("sub_type", Json.str "url"),
        ("parameters", Json.arr [Json.obj [("type", Json.str "text"), ("text", Json.str "promo")]])]]) :=
  ⟨rfl, rfl⟩

/-- C6: for both the `send_media` handler and the media branch of the
`reply_to_conversation` handler, a non-empty caption with type `audio` is
never placed in the built media content object, while for the types
`image`, `video` and `file` it is placed (as the `caption` property). -/
theorem c6_audio_caption_suppressed (media_url : String) (mu : Option String) (caption : String)
    (hc : caption ≠ "") :
    jget (sendMediaMedia "audio" media_url (some caption)) "caption" = none ∧
    (∀ t, t = "image" ∨ t = "video" ∨ t = "file" →
      jget (sendMediaMedia t media_url (some caption)) "caption" = some (Json.str caption)) ∧
    jget (replyMedia "audio" mu (some caption)) "caption" = none ∧
    (∀ t, t = "image" ∨ t = "video" ∨ t = "file" →
      jget (replyMedia t mu (some caption)) "caption" = some (Json.str caption)) := by
  refine ⟨?_, ?_, ?_, ?_⟩
  · simp [sendMediaMedia, jget]
  · intro t ht
    rcases ht with rfl | rfl | rfl <;>
      simp [sendMediaMedia, truthyStr, objSet, jget, hc]
  · simp [replyMedia, jget]
  · intro t ht
    rcases ht with rfl | rfl | rfl <;>
      simp [replyMedia, truthyStr, objSet, jget, hc]

/-- C6, witness: the suppression and placement at the concrete caption
`look at this` (and a concrete media URL). -/
theorem c6_witness :
    ("look at this" ≠ "") ∧
    (jget (sendMediaMedia "audio" "https://e.com/a.mp3" (some "look at this")) "caption" = none ∧
     (∀ t, t = "image" ∨ t = "video" ∨ t = "file" →
       jget (sendMediaMedia t "https://e.com/a.mp3" (some "look at this")) "caption" =
         some (Json.str "look at this")) ∧
     jget (replyMedia "audio" (some "https://e.com/a.mp3") (some "look at this")) "caption" = none ∧
     (∀ t, t = "image" ∨ t = "video" ∨ t = "file" →
       jget (replyMedia t (some "https://e.com/a.mp3") (some "look at this")) "caption" =
         some (Json.str "look at this"))) :=
  ⟨by decide, c6_audio_caption_suppressed "https://e.com/a.mp3" (some "https://e.com/a.mp3")
    "look at this" (by decide)⟩

/-- C9: for the truthiness-guarded optional string inputs (`report_url` of
`send_text`; `header_text`, `header_image_url`, `footer_text` of
`send_interactive_buttons`; `first_name`, `last_name`, `custom1`-`custom4`
of `create_contact`), supplying the empty string builds exactly the same
request body as omitting the field, and the corresponding body field is
absent when the input is omitted (hence absent in both runs). -/
theorem c9_empty_string_equals_omitted :
    (∀ to_ frm text dup, sendTextBody to_ frm text dup (some "") = sendTextBody to_ frm text dup none ∧
      jget (sendTextBody to_ frm text dup none) "reportUrl" = none) ∧
    (∀ bt btns hiu ft, sendInteractiveButtonsInteractive bt btns (some "") hiu ft =
      sendInteractiveButtonsInteractive bt btns none hiu ft) ∧
    (∀ bt btns ht ft, sendInteractiveButtonsInteractive bt btns ht (some "") ft =
      sendInteractiveButtonsInteractive bt btns ht none ft) ∧
    (∀ bt btns ht hiu, sendInteractiveButtonsInteractive bt btns ht hiu (some "") =
      sendInteractiveButtonsInteractive bt btns ht hiu none) ∧
    (∀ bt btns, jget (sendInteractiveButtonsInteractive bt btns none none none) "header" = none ∧
      jget (sendInteractiveButtonsInteractive bt btns none none none) "footer" = none) ∧
    (∀ m ln c1 c2 c3 c4, createContactBody m (some "") ln c1 c2 c3 c4 =
      createContactBody m none ln c1 c2 c3 c4) ∧
    (∀ m fn c1 c2 c3 c4, createContactBody m fn (some "") c1 c2 c3 c4 =
      createContactBody m fn none c1 c2 c3 c4) ∧
    (∀ m fn ln c2 c3 c4, createContactBody m fn ln (some "") c2 c3 c4 =
      createContactBody m fn ln none c2 c3 c4) ∧
    (∀ m fn ln c1 c3 c4, createContactBody m fn ln c1 (some "") c3 c4 =
      createContactBody m fn ln c1 none c3 c4) ∧
    (∀ m fn ln c1 c2 c4, createContactBody m fn ln c1 c2 (some "") c4 =
      createContactBody m fn ln c1 c2 none c4) ∧
    (∀ m fn ln c1 c2 c3, createContactBody m fn ln c1 c2 c3 (some "") =
      createContactBody m fn ln c1 c2 c3 none) ∧
    (∀ m, jget (createContactBody m none none none none none none) "firstName" = none ∧
      jget (createContactBody m none none none none none none) "lastName" = none ∧
      jget (createContactBody m none none none none none none) "custom1" = none) := by
  refine ⟨?_, ?_, ?_, ?_, ?_, ?_, ?_, ?_, ?_, ?_, ?_, ?_⟩
  · intro to_ frm text dup
    constructor
    · simp [sendTextBody, truthyStr]
    · simp [sendTextBody, truthyStr, jget]
  · intro bt btns hiu ft
    simp [sendInteractiveButtonsInteractive, truthyStr]
  · intro bt btns ht ft
    simp [sendInteractiveButtonsInteractive, truthyStr]
  · intro bt btns ht hiu
    simp [sendInteractiveButtonsInteractive, truthyStr]
  · intro bt btns
    constructor <;> simp [sendInteractiveButtonsInteractive, truthyStr, jget]
  · intro m ln c1 c2 c3 c4
    simp [createContactBody, truthyStr]
  · intro m fn c1 c2 c3 c4
    simp [createContactBody, truthyStr]
  · intro m fn ln c2 c3 c4
    simp [createContactBody, truthyStr]
  · intro m fn ln c1 c3 c4
    simp [createContactBody, truthyStr]
  · intro m fn ln c1 c2 c4
    simp [createContactBody, truthyStr]
  · intro m fn ln c1 c2 c3
    simp [createContactBody, truthyStr]
  · intro m
    refine ⟨?_, ?_, ?_⟩ <;> simp [createContactBody, truthyStr, jget]

/-- C10: the `reply_to_conversation` handler does not reject a `text` reply
whose text is absent or empty: it builds content `{text: ""}` and issues
the POST to the conversation's messages endpoint; and for each of the six
schema-permitted types the request construction succeeds (the
`Unsupported message type` branch is unreachable). -/
theorem c10_reply_text_empty_accepted :
    (∀ cid mu cap la lo ch, ∃ b,
      replyToConversationRequest cid "text" none mu cap la lo ch =
        Except.ok ⟨"/conversations/" ++ cid ++ "/messages", Method.POST,
          some (Json.obj b), none, ApiTarget.conversations⟩ ∧
      jget b "content" = some (Json.obj [("text", Json.str "")]) ∧
      replyToConversationRequest cid "text" (some "") mu cap la lo ch =
        replyToConversationRequest cid "text" none mu cap la lo ch) ∧
    (∀ cid text mu cap la lo ch, ∃ r,
      replyToConversationRequest cid "image" text mu cap la lo ch = Except.ok r) ∧
    (∀ cid text mu cap la lo ch, ∃ r,
      replyToConversationRequest cid "video" text mu cap la lo ch = Except.ok r) ∧
    (∀ cid text mu cap la lo ch, ∃ r,
      replyToConversationRequest cid "audio" text mu cap la lo ch = Except.ok r) ∧
    (∀ cid text mu cap la lo ch, ∃ r,
      replyToConversationRequest cid "file" text mu cap la lo ch = Except.ok r) ∧
    (∀ cid text mu cap la lo ch, ∃ r,
      replyToConversationRequest cid "location" text mu cap la lo ch = Except.ok r) := by
  refine ⟨?_, ?_, ?_, ?_, ?_, ?_⟩
  · intro cid mu cap la lo ch
    match hch : ch with
    | none =>
      refine ⟨[("type", Json.str "text"), ("content", Json.obj [("text", Json.str "")])], ?_, ?_, ?_⟩
      · simp [replyToConversationRequest, replyBuildContent, truthyStr]
      · simp [jget]
      · simp [replyToConversationRequest, replyBuildContent]
    | some c =>
      by_cases hc : c = ""
      · subst hc
        refine ⟨[("type", Json.str "text"), ("content", Json.obj [("text", Json.str "")])], ?_, ?_, ?_⟩
        · simp [replyToConversationRequest, replyBuildContent, truthyStr]
        · simp [jget]
        · simp [replyToConversationRequest, replyBuildContent]
      · refine ⟨[("type", Json.str "text"), ("content", Json.obj [("text", Json.str "")]),
          ("channelId", Json.str c)], ?_, ?_, ?_⟩
        · simp [replyToConversationRequest, replyBuildContent, truthyStr, hc, objSet, jget]
        · simp [jget]
        · simp [replyToConversationRequest, replyBuildContent]
  · intro cid text mu cap la lo ch
    exact ⟨_, rfl⟩
  · intro cid text mu cap la lo ch
    exact ⟨_, rfl⟩
  · intro cid text mu cap la lo ch
    exact ⟨_, rfl⟩
  · intro cid text mu cap la lo ch
    exact ⟨_, rfl⟩
  · intro cid text mu cap la lo ch
    exact ⟨_, rfl⟩

/-- C5: a `send_template` input with a (non-empty) `header_image_url` and a
non-empty `parameters` list never yields a `params` field alongside a
`components` field: the built hsm carries `components` and no `params`. -/
theorem c5_params_xor_components (ns tn lc hiu : String) (ps : List String)
    (hvu hdu bus : Option String) (hps : ps ≠ []) (hhiu : hiu ≠ "") :
    jget (buildHsm ns tn lc (some ps) (some hiu) hvu hdu bus) "params" = none ∧
    (jget (buildHsm ns tn lc (some ps) (some hiu) hvu hdu bus) "components").isSome = true := by
  have h1 : truthyStr (some hiu) = true := by simp [truthyStr, hhiu]
  have h2 : hasParams (some ps) = true := by
    cases ps with
    | nil => exact absurd rfl hps
    | cons a l => rfl
  by_cases hb : truthyStr bus <;>
    simp [buildHsm, h1, h2, hb, objSet, objDelete, jget]

/-- C5, witness: the theorem at a concrete image-header template input. -/
theorem c5_witness :
    (["Ana"] ≠ ([] : List String)) ∧ ("https://e.com/h.png" ≠ "") ∧
    (jget (buildHsm "ns" "tpl" "en" (some ["Ana"]) (some "https://e.com/h.png") none none none)
      "params" = none ∧
    (jget (buildHsm "ns" "tpl" "en" (some ["Ana"]) (some "https://e.com/h.png") none none none)
      "components").isSome = true) :=
  ⟨by decide, by decide,
    c5_params_xor_components "ns" "tpl" "en" "https://e.com/h.png" ["Ana"] none none none
      (by decide) (by decide)⟩

/-- C8, counterexample: the `update_template` handler's invalid-JSON
short-circuit (inner try/catch around `JSON.parse`) returns an error-flagged
result whose message is the fixed string
`Invalid JSON in components parameter`, which is not prefixed by the
handler's static operation description `Failed to update template: `. -/
theorem c8_claim_false :
    updateTemplateHandler "tpl" "en" "waba1" none none (fun _ => Except.ok (Json.obj [])) =
      ToolOutcome.error "Invalid JSON in components parameter" ∧
    "Failed to update template: ".data.isPrefixOf "Invalid JSON in components parameter".data = false :=
  ⟨rfl, by decide⟩

/-- Helper for the uniform handler boundary: a dispatch outcome wrapped in
the standard try/catch yields either a success result carrying the payload
or an error result carrying the prefixed message. -/
theorem dispatch_wrap_cases (spec : RequestSpec) (dispatch : RequestSpec → Except String Json)
    (pfx : String) :
    (∃ d, (match dispatch spec with
      | Except.ok data => toolResult data
      | Except.error e => toolError (pfx ++ e)) = ToolOutcome.result d) ∨
    (∃ m, (match dispatch spec with
      | Except.ok data => toolResult data
      | Except.error e => toolError (pfx ++ e)) = ToolOutcome.error (pfx ++ m)) := by
  cases dispatch spec with
  | ok d => exact Or.inl ⟨d, rfl⟩
  | error e => exact Or.inr ⟨e, rfl⟩

/-- Variant of `dispatch_wrap_cases` for the delete handlers, whose success
branch discards the response and returns a constructed payload. -/
theorem dispatch_wrap_cases_const (spec : RequestSpec) (dispatch : RequestSpec → Except String Json)
    (pfx : String) (payload : Json) :
    (∃ d, (match dispatch spec with
      | Except.ok _ => toolResult payload
      | Except.error e => toolError (pfx ++ e)) = ToolOutcome.result d) ∨
    (∃ m, (match dispatch spec with
      | Except.ok _ => toolResult payload
      | Except.error e => toolError (pfx ++ e)) = ToolOutcome.error (pfx ++ m)) := by
  cases dispatch spec with
  | ok d => exact Or.inl ⟨payload, rfl⟩
  | error e => exact Or.inr ⟨e, rfl⟩

/-- C8, amended: every tool handler the server registers (all twenty-four,
modelled above), on every outcome of its body (a returned value or any
failure raised beneath it, including the ApiError raised by dispatch),
returns exactly one of the two mutually exclusive result shapes: a success
result wrapping the payload, or an error-flagged result whose message is
prefixed with the handler's short static operation description - with one
exception, which the counterexample exhibits: `update_template`'s
invalid-JSON short-circuit returns the fixed unprefixed message
`Invalid JSON in components parameter`. No error escapes a handler either
way. For `reply_to_conversation` the property is stated for the six
schema-permitted types (the only inputs the validated handler can see;
its unsupported-type branch is unreachable, see the C10 theorem). -/
theorem c8_handler_uniform_results :
    (∀ to_ frm text dup rurl dispatch,
      (∃ d, sendTextHandler to_ frm text dup rurl dispatch = ToolOutcome.result d) ∨
      (∃ m, sendTextHandler to_ frm text dup rurl dispatch =
        ToolOutcome.error ("Failed to send text message: " ++ m))) ∧
    (∀ to_ frm mt mu cap dispatch,
      (∃ d, sendMediaHandler to_ frm mt mu cap dispatch = ToolOutcome.result d) ∨
      (∃ m, sendMediaHandler to_ frm mt mu cap dispatch =
        ToolOutcome.error ("Failed to send media message: " ++ m))) ∧
    (∀ to_ frm lat lng name addr dispatch,
      (∃ d, sendLocationHandler to_ frm lat lng name addr dispatch = ToolOutcome.result d) ∨
      (∃ m, sendLocationHandler to_ frm lat lng name addr dispatch =
        ToolOutcome.error ("Failed to send location: " ++ m))) ∧
    (∀ to_ frm ns tn lc ps hiu hvu hdu bus dispatch,
      (∃ d, sendTemplateHandler to_ frm ns tn lc ps hiu hvu hdu bus dispatch = ToolOutcome.result d) ∨
      (∃ m, sendTemplateHandler to_ frm ns tn lc ps hiu hvu hdu bus dispatch =
        ToolOutcome.error ("Failed to send template message: " ++ m))) ∧
    (∀ to_ frm bt btns ht hiu ft dispatch,
      (∃ d, sendInteractiveButtonsHandler to_ frm bt btns ht hiu ft dispatch = ToolOutcome.result d) ∨
      (∃ m, sendInteractiveButtonsHandler to_ frm bt btns ht hiu ft dispatch =
        ToolOutcome.error ("Failed to send interactive buttons: " ++ m))) ∧
    (∀ to_ frm bt bl secs ht ft dispatch,
      (∃ d, sendInteractiveListHandler to_ frm bt bl secs ht ft dispatch = ToolOutcome.result d) ∨
      (∃ m, sendInteractiveListHandler to_ frm bt bl secs ht ft dispatch =
        ToolOutcome.error ("Failed to send interactive list: " ++ m))) ∧
    (∀ off lim dispatch,
      (∃ d, listConversationsHandler off lim dispatch = ToolOutcome.result d) ∨
      (∃ m, listConversationsHandler off lim dispatch =
        ToolOutcome.error ("Failed to list conversations: " ++ m))) ∧
    (∀ cid dispatch,
      (∃ d, getConversationHandler cid dispatch = ToolOutcome.result d) ∨
      (∃ m, getConversationHandler cid dispatch =
        ToolOutcome.error ("Failed to get conversation: " ++ m))) ∧
    (∀ cid st dispatch,
      (∃ d, updateConversationHandler cid st dispatch = ToolOutcome.result d) ∨
      (∃ m, updateConversationHandler cid st dispatch =
        ToolOutcome.error ("Failed to update conversation: " ++ m))) ∧
    (∀ cid off lim dispatch,
      (∃ d, listConversationMessagesHandler cid off lim dispatch = ToolOutcome.result d) ∨
      (∃ m, listConversationMessagesHandler cid off lim dispatch =
        ToolOutcome.error ("Failed to list messages: " ++ m))) ∧
    (∀ cid mid dispatch,
      (∃ d, getMessageHandler cid mid dispatch = ToolOutcome.result d) ∨
      (∃ m, getMessageHandler cid mid dispatch =
        ToolOutcome.error ("Failed to get message: " ++ m))) ∧
    (∀ cid ty text mu cap la lo ch dispatch,
      ty = "text" ∨ ty = "image" ∨ ty = "video" ∨ ty = "audio" ∨ ty = "file" ∨ ty = "location" →
      (∃ d, replyToConversationHandler cid ty text mu cap la lo ch dispatch = ToolOutcome.result d) ∨
      (∃ m, replyToConversationHandler cid ty text mu cap la lo ch dispatch =
        ToolOutcome.error ("Failed to reply to conversation: " ++ m))) ∧
    (∀ off lim dispatch,
      (∃ d, listMessagesHandler off lim dispatch = ToolOutcome.result d) ∨
      (∃ m, listMessagesHandler off lim dispatch =
        ToolOutcome.error ("Failed to list messages: " ++ m))) ∧
    (∀ off lim dispatch,
      (∃ d, listContactsHandler off lim dispatch = ToolOutcome.result d) ∨
      (∃ m, listContactsHandler off lim dispatch =
        ToolOutcome.error ("Failed to list contacts: " ++ m))) ∧
    (∀ cid msisdn name dispatch,
      (∃ d, getContactHandler cid msisdn name dispatch = ToolOutcome.result d) ∨
      (∃ m, getContactHandler cid msisdn name dispatch =
        ToolOutcome.error ("Failed to get contact: " ++ m))) ∧
    (∀ m fn ln c1 c2 c3 c4 dispatch,
      (∃ d, createContactHandler m fn ln c1 c2 c3 c4 dispatch = ToolOutcome.result d) ∨
      (∃ e, createContactHandler m fn ln c1 c2 c3 c4 dispatch =
        ToolOutcome.error ("Failed to create contact: " ++ e))) ∧
    (∀ cid m fn ln c1 c2 c3 c4 dispatch,
      (∃ d, updateContactHandler cid m fn ln c1 c2 c3 c4 dispatch = ToolOutcome.result d) ∨
      (∃ e, updateContactHandler cid m fn ln c1 c2 c3 c4 dispatch =
        ToolOutcome.error ("Failed to update contact: " ++ e))) ∧
    (∀ cid dispatch,
      (∃ d, deleteContactHandler cid dispatch = ToolOutcome.result d) ∨
      (∃ m, deleteContactHandler cid dispatch =
        ToolOutcome.error ("Failed to delete contact: " ++ m))) ∧
    (∀ off lim wb chid dispatch,
      (∃ d, listTemplatesHandler off lim wb chid dispatch = ToolOutcome.result d) ∨
      (∃ m, listTemplatesHandler off lim wb chid dispatch =
        ToolOutcome.error ("Failed to list templates: " ++ m))) ∧
    (∀ name lang dispatch,
      (∃ d, getTemplateHandler name lang dispatch = ToolOutcome.result d) ∨
      (∃ m, getTemplateHandler name lang dispatch =
        ToolOutcome.error ("Failed to get template: " ++ m))) ∧
    (∀ name lang cat bt ht htx heu ft btn btx bval bex wb acc dispatch,
      (∃ d, createTemplateHandler name lang cat bt ht htx heu ft btn btx bval bex wb acc dispatch =
        ToolOutcome.result d) ∨
      (∃ m, createTemplateHandler name lang cat bt ht htx heu ft btn btx bval bex wb acc dispatch =
        ToolOutcome.error ("Failed to create template: " ++ m))) ∧
    (∀ nm lg wb pc cat dispatch,
      (∃ d, updateTemplateHandler nm lg wb pc cat dispatch = ToolOutcome.result d) ∨
      (∃ m, updateTemplateHandler nm lg wb pc cat dispatch =
        ToolOutcome.error ("Failed to update template: " ++ m)) ∨
      (pc = none ∧ updateTemplateHandler nm lg wb pc cat dispatch =
        ToolOutcome.error "Invalid JSON in components parameter")) ∧
    (∀ name dispatch,
      (∃ d, deleteTemplateHandler name dispatch = ToolOutcome.result d) ∨
      (∃ m, deleteTemplateHandler name dispatch =
        ToolOutcome.error ("Failed to delete template: " ++ m))) ∧
    (∀ name lang dispatch,
      (∃ d, deleteTemplateVariantHandler name lang dispatch = ToolOutcome.result d) ∨
      (∃ m, deleteTemplateVariantHandler name lang dispatch =
        ToolOutcome.error ("Failed to delete template variant: " ++ m))) := by
  refine ⟨?_, ?_, ?_, ?_, ?_, ?_, ?_, ?_, ?_, ?_, ?_, ?_, ?_, ?_, ?_, ?_, ?_, ?_, ?_, ?_, ?_, ?_, ?_, ?_⟩
  · intro to_ frm text dup rurl dispatch
    exact dispatch_wrap_cases _ dispatch _
  · intro to_ frm mt mu cap dispatch
    exact dispatch_wrap_cases _ dispatch _
  · intro to_ frm lat lng name addr dispatch
    exact dispatch_wrap_cases _ dispatch _
  · intro to_ frm ns tn lc ps hiu hvu hdu bus dispatch
    exact dispatch_wrap_cases _ dispatch _
  · intro to_ frm bt btns ht hiu ft dispatch
    exact dispatch_wrap_cases _ dispatch _
  · intro to_ frm bt bl secs ht ft dispatch
    exact dispatch_wrap_cases _ dispatch _
  · intro off lim dispatch
    exact dispatch_wrap_cases _ dispatch _
  · intro cid dispatch
    exact dispatch_wrap_cases _ dispatch _
  · intro cid st dispatch
    exact dispatch_wrap_cases _ dispatch _
  · intro cid off lim dispatch
    exact dispatch_wrap_cases _ dispatch _
  · intro cid mid dispatch
    exact dispatch_wrap_cases _ dispatch _
  · intro cid ty text mu cap la lo ch dispatch hty
    have hok : ∃ spec, replyToConversationRequest cid ty text mu cap la lo ch = Except.ok spec := by
      rcases hty with rfl | rfl | rfl | rfl | rfl | rfl <;>
        exact ⟨_, rfl⟩
    obtain ⟨spec, hspec⟩ := hok
    cases hd : dispatch spec with
    | ok d =>
      exact Or.inl ⟨d, by simp [replyToConversationHandler, hspec, hd, toolResult]⟩
    | error e =>
      exact Or.inr ⟨e, by simp [replyToConversationHandler, hspec, hd, toolError]⟩
  · intro off lim dispatch
    exact dispatch_wrap_cases _ dispatch _
  · intro off lim dispatch
    exact dispatch_wrap_cases _ dispatch _
  · intro cid msisdn name dispatch
    unfold getContactHandler
    by_cases h : truthyStr cid
    · rw [if_pos h]
      exact dispatch_wrap_cases _ dispatch _
    · rw [if_neg h]
      exact dispatch_wrap_cases _ dispatch _
  · intro m fn ln c1 c2 c3 c4 dispatch
    exact dispatch_wrap_cases _ dispatch _
  · intro cid m fn ln c1 c2 c3 c4 dispatch
    exact dispatch_wrap_cases _ dispatch _
  · intro cid dispatch
    exact dispatch_wrap_cases_const _ dispatch _ _
  · intro off lim wb chid dispatch
    exact dispatch_wrap_cases _ dispatch _
  · intro name lang dispatch
    exact dispatch_wrap_cases _ dispatch _
  · intro name lang cat bt ht htx heu ft btn btx bval bex wb acc dispatch
    exact dispatch_wrap_cases _ dispatch _
  · intro nm lg wb pc cat dispatch
    match pc with
    | none => exact Or.inr (Or.inr ⟨rfl, rfl⟩)
    | some v =>
      cases hd : dispatch ⟨"/v2/platforms/whatsapp/templates/" ++ nm ++ "/" ++ lg, Method.PUT,
          some (Json.obj (if truthyStr cat then
            objSet [("wabaId", Json.str wb), ("components", v)] "category" (Json.str (cat.getD ""))
          else [("wabaId", Json.str wb), ("components", v)])), none, ApiTarget.integrations⟩ with
      | ok d =>
        exact Or.inl ⟨d, by simp [updateTemplateHandler, hd, toolResult]⟩
      | error e =>
        exact Or.inr (Or.inl ⟨e, by simp [updateTemplateHandler, hd, toolError]⟩)
  · intro name dispatch
    exact dispatch_wrap_cases_const _ dispatch _ _
  · intro name lang dispatch
    exact dispatch_wrap_cases_const _ dispatch _ _

/-- C8, witness: the reply conjunct of the amended theorem applied at the
type `text` with an erroring dispatch. -/
theorem c8_witness :
    (("text" : String) = "text" ∨ ("text" : String) = "image" ∨ ("text" : String) = "video" ∨
      ("text" : String) = "audio" ∨ ("text" : String) = "file" ∨ ("text" : String) = "location") ∧
    ((∃ d, replyToConversationHandler "c1" "text" none none none none none none
        (fun _ => Except.error "boom") = ToolOutcome.result d) ∨
     (∃ m, replyToConversationHandler "c1" "text" none none none none none none
        (fun _ => Except.error "boom") =
        ToolOutcome.error ("Failed to reply to conversation: " ++ m))) :=
  ⟨Or.inl rfl,
    c8_handler_uniform_results.2.2.2.2.2.2.2.2.2.2.2.1 "c1" "text" none none none none none none
      (fun _ => Except.error "boom") (Or.inl rfl)⟩

/-- The entries surviving the query-parameter filter of src/client.ts line 38
(`value !== undefined && value !== ""`), keeping order and pairing each key
with its (string) value. -/
def surviveFilter (entries : List (String × Option String)) : List (String × String) :=
  entries.filterMap fun kv =>
    match kv.2 with
    | some v => if v ≠ "" then some (kv.1, v) else none
    | none => none

theorem setParam_of_not_mem {ps : List (String × String)} {k : String} (v : String)
    (h : k ∉ ps.map Prod.fst) : setParam ps k v = ps ++ [(k, v)] := by
  induction ps with
  | nil => rfl
  | cons p ps ih =>
    simp only [List.map_cons, List.mem_cons] at h
    push_neg at h
    simp only [setParam]
    rw [if_neg (by exact fun hc => h.1 hc.symm)]
    rw [ih h.2]
    simp

theorem buildParams_go (entries : List (String × Option String)) (acc : List (String × String))
    (hnd : (entries.map Prod.fst).Nodup)
    (hacc : ∀ kv ∈ entries, kv.1 ∉ acc.map Prod.fst) :
    entries.foldl buildStep acc = acc ++ surviveFilter entries := by
  induction entries generalizing acc with
  | nil => simp [surviveFilter]
  | cons kv rest ih =>
    simp only [List.map_cons, List.nodup_cons] at hnd
    rw [List.foldl_cons]
    match hv : kv.2 with
    | none =>
      have hb : buildStep acc kv = acc := by simp [buildStep, hv]
      have hs : surviveFilter (kv :: rest) = surviveFilter rest := by
        simp [surviveFilter, List.filterMap_cons, hv]
      rw [hb, ih acc hnd.2 (fun kv' h' => hacc kv' (List.mem_cons_of_mem _ h')), hs]
    | some v =>
      by_cases hve : v = ""
      · have hb : buildStep acc kv = acc := by simp [buildStep, hv, hve]
        have hs : surviveFilter (kv :: rest) = surviveFilter rest := by
          simp [surviveFilter, List.filterMap_cons, hv, hve]
        rw [hb, ih acc hnd.2 (fun kv' h' => hacc kv' (List.mem_cons_of_mem _ h')), hs]
      · have hb : buildStep acc kv = setParam acc kv.1 v := by simp [buildStep, hv, hve]
        have hs : surviveFilter (kv :: rest) = (kv.1, v) :: surviveFilter rest := by
          simp [surviveFilter, List.filterMap_cons, hv, hve]
        rw [hb, setParam_of_not_mem v (hacc kv (List.mem_cons_self _ _))]
        rw [ih (acc ++ [(kv.1, v)]) hnd.2 ?later, hs]
        · simp
        case later =>
          intro kv' h'
          simp only [List.map_append, List.mem_append]
          push_neg
          constructor
          · exact hacc kv' (List.mem_cons_of_mem _ h')
          · simp only [List.map_cons, List.map_nil, List.mem_singleton]
            intro hEq
            exact hnd.1 (hEq ▸ List.mem_map_of_mem Prod.fst h')

/-- Under unique keys (guaranteed for `Object.entries` of a JS record), the
populated `URLSearchParams` equal the order-preserving filter of the truthy
entries. -/
theorem buildParams_eq (entries : List (String × Option String))
    (hnd : (entries.map Prod.fst).Nodup) :
    buildParams entries = surviveFilter entries := by
  have := buildParams_go entries [] hnd (by simp)
  simpa [buildParams] using this

theorem surviveFilter_keys_sublist (entries : List (String × Option String)) :
    List.Sublist ((surviveFilter entries).map Prod.fst) (entries.map Prod.fst) := by
  induction entries with
  | nil => simp [surviveFilter]
  | cons kv rest ih =>
    match hv : kv.2 with
    | none =>
      have hs : surviveFilter (kv :: rest) = surviveFilter rest := by
        simp [surviveFilter, List.filterMap_cons, hv]
      rw [hs, List.map_cons]
      exact List.Sublist.cons _ ih
    | some v =>
      by_cases hve : v = ""
      · have hs : surviveFilter (kv :: rest) = surviveFilter rest := by
          simp [surviveFilter, List.filterMap_cons, hv, hve]
        rw [hs, List.map_cons]
        exact List.Sublist.cons _ ih
      · have hs : surviveFilter (kv :: rest) = (kv.1, v) :: surviveFilter rest := by
          simp [surviveFilter, List.filterMap_cons, hv, hve]
        rw [hs, List.map_cons, List.map_cons]
        exact List.Sublist.cons₂ _ ih

theorem paramsToString_ne_empty (ps : List (String × String)) (h : ps ≠ []) :
    paramsToString ps ≠ "" := by
  match ps with
  | [] => exact absurd rfl h
  | [kv] =>
    intro hs
    have hlen := congrArg String.length hs
    simp only [paramsToString, String.length_append] at hlen
    rw [show ("=" : String).length = 1 from rfl, show ("" : String).length = 0 from rfl] at hlen
    omega
  | kv :: kv2 :: rest =>
    intro hs
    have hlen := congrArg String.length hs
    simp only [paramsToString, String.length_append] at hlen
    rw [show ("=" : String).length = 1 from rfl, show ("&" : String).length = 1 from rfl,
      show ("" : String).length = 0 from rfl] at hlen
    omega

/-- C4: for every query-parameter mapping (with the unique keys of a JS
record), entries whose value is undefined or the empty string are absent
from the survivor list serialized into the URL, every other entry appears
in it exactly once (form-encoded on serialization), and the `?` separator
is appended exactly when at least one entry survives. -/
theorem c4_query_param_filtering (base endpoint : String)
    (entries : List (String × Option String))
    (hnd : (entries.map Prod.fst).Nodup) :
    (surviveFilter entries = [] → apiRequestUrl base endpoint (some entries) = base ++ endpoint) ∧
    (surviveFilter entries ≠ [] →
      apiRequestUrl base endpoint (some entries) =
        base ++ endpoint ++ "?" ++ paramsToString (surviveFilter entries)) ∧
    (∀ kv ∈ entries, (kv.2 = none ∨ kv.2 = some "") →
      kv.1 ∉ (surviveFilter entries).map Prod.fst) ∧
    (∀ k v, (k, some v) ∈ entries → v ≠ "" →
      @List.count (String × String) instBEqOfDecidableEq (k, v) (surviveFilter entries) = 1) := by
  have hbp : buildParams entries = surviveFilter entries := buildParams_eq entries hnd
  refine ⟨?_, ?_, ?_, ?_⟩
  · intro hemp
    simp [apiRequestUrl, hbp, hemp, paramsToString]
  · intro hne
    have hq : paramsToString (surviveFilter entries) ≠ "" := paramsToString_ne_empty _ hne
    simp [apiRequestUrl, hbp, hq]
  · intro kv hmem hdrop hk
    obtain ⟨p, hpmem, hpf⟩ := List.mem_map.mp hk
    obtain ⟨q, hqmem, hqf⟩ := List.mem_filterMap.mp hpmem
    match hq2 : q.2 with
    | none => rw [hq2] at hqf; exact absurd hqf (by simp)
    | some v =>
      rw [hq2] at hqf
      by_cases hv : v = ""
      · rw [hv] at hqf
        simp at hqf
      · simp only [if_pos (by simp [hv] : v ≠ "")] at hqf
        have hpq : p = (q.1, v) := by
          cases hqf
          rfl
        have hfst : kv.1 = q.1 := by rw [← hpf, hpq]
        have hkvq : kv = q :=
          List.inj_on_of_nodup_map hnd hmem hqmem (by simpa using hfst)
        rw [hkvq] at hdrop
        rcases hdrop with hd | hd
        · rw [hq2] at hd
          exact Option.noConfusion hd
        · rw [hq2] at hd
          have : v = "" := by injection hd
          exact hv this
  · intro k v hmem hv
    have hkeys : ((surviveFilter entries).map Prod.fst).Nodup :=
      (surviveFilter_keys_sublist entries).nodup hnd
    have hsn : (surviveFilter entries).Nodup := List.Nodup.of_map _ hkeys
    have hmem' : (k, v) ∈ surviveFilter entries :=
      List.mem_filterMap.mpr ⟨(k, some v), hmem, by simp [hv]⟩
    exact List.count_eq_one_of_mem hsn hmem'

/-- C4, witness: the theorem at a concrete mapping with one surviving entry,
one undefined entry and one empty-string entry. -/
theorem c4_witness :
    ((([("offset", some "20"), ("limit", none), ("wabaId", some "")] :
        List (String × Option String)).map Prod.fst).Nodup) ∧
    ((surviveFilter [("offset", some "20"), ("limit", none), ("wabaId", some "")] = [] →
      apiRequestUrl "https://conversations.messagebird.com/v1" "/conversations"
        (some [("offset", some "20"), ("limit", none), ("wabaId", some "")]) =
        "https://conversations.messagebird.com/v1" ++ "/conversations") ∧
    (surviveFilter [("offset", some "20"), ("limit", none), ("wabaId", some "")] ≠ [] →
      apiRequestUrl "https://conversations.messagebird.com/v1" "/conversations"
        (some [("offset", some "20"), ("limit", none), ("wabaId", some "")]) =
        "https://conversations.messagebird.com/v1" ++ "/conversations" ++ "?" ++
          paramsToString (surviveFilter [("offset", some "20"), ("limit", none), ("wabaId", some "")])) ∧
    (∀ kv ∈ ([("offset", some "20"), ("limit", none), ("wabaId", some "")] :
        List (String × Option String)), (kv.2 = none ∨ kv.2 = some "") →
      kv.1 ∉ (surviveFilter [("offset", some "20"), ("limit", none), ("wabaId", some "")]).map Prod.fst) ∧
    (∀ k v, (k, some v) ∈ ([("offset", some "20"), ("limit", none), ("wabaId", some "")] :
        List (String × Option String)) → v ≠ "" →
      @List.count (String × String) instBEqOfDecidableEq (k, v)
        (surviveFilter [("offset", some "20"), ("limit", none), ("wabaId", some "")]) = 1)) :=
  ⟨by decide,
    c4_query_param_filtering "https://conversations.messagebird.com/v1" "/conversations"
      [("offset", some "20"), ("limit", none), ("wabaId", some "")] (by decide)⟩

/-- Projection of a component block to its `type` property (the component
tag string); non-objects and missing or non-string tags give `""`. -/
def compTypeStr : Json → String
  | Json.obj fields =>
    match jget fields "type" with
    | some (Json.str s) => s
    | _ => ""
  | _ => ""

set_option maxHeartbeats 1000000 in
/-- C7: the `create_template` components array always lists its blocks in
the fixed order header (when a header type is given), body (always), footer
(when given), buttons (when a button type and text are given); and a
URL-typed button whose (non-empty) value contains two consecutive opening
braces carries a generated `example` array holding the value with every
brace-delimited numeric placeholder substituted by the fixed placeholder
string. -/
theorem c7_template_order_and_button_example (body_text : String)
    (header_type header_text header_example_url footer_text button_type button_text button_value : Option String)
    (body_examples : Option (List String)) :
    ((createTemplateComponents body_text header_type header_text header_example_url footer_text
        button_type button_text button_value body_examples).map compTypeStr =
      (if truthyStr header_type then ["HEADER"] else []) ++ ["BODY"] ++
      (if truthyStr footer_text then ["FOOTER"] else []) ++
      (if truthyStr button_type && truthyStr button_text then ["BUTTONS"] else [])) ∧
    (∀ bv, button_type = some "URL" → truthyStr button_text = true → button_value = some bv →
      bv ≠ "" → containsBB bv.data = true →
      ∃ btn, (createTemplateComponents body_text header_type header_text header_example_url
          footer_text button_type button_text button_value body_examples).getLast? =
        some (Json.obj [("type", Json.str "BUTTONS"), ("buttons", Json.arr [Json.obj btn])]) ∧
        jget btn "example" = some (Json.arr [Json.str (replacePlaceholders bv)])) := by
  constructor
  · rcases body_examples with _ | exs <;>
    · simp only [createTemplateComponents]
      split_ifs <;> simp_all [compTypeStr, objSet, jget]
  · intro bv hbt hbtx hbv hbvne hbb
    subst hbt
    subst hbv
    have hbv' : truthyStr (some bv) = true := by simp [truthyStr, hbvne]
    refine ⟨[("type", Json.str "URL"), ("text", Json.str (button_text.getD "")),
      ("url", Json.str bv), ("example", Json.arr [Json.str (replacePlaceholders bv)])], ?_, ?_⟩
    · simp only [createTemplateComponents]
      have hb : (truthyStr (some "URL") && truthyStr button_text) = true := by
        rw [hbtx]
        rfl
      have hpn : ¬ ((decide ((some "URL" : Option String).getD "" = "PHONE_NUMBER") &&
          truthyStr (some bv)) = true) := by simp
      have hurl : (decide ((some "URL" : Option String).getD "" = "URL") &&
          truthyStr (some bv)) = true := by simp [hbv']
      have hbb' : containsBB ((some bv : Option String).getD "").data = true := by
        simpa using hbb
      rw [if_pos hb, if_neg hpn, if_pos hurl, if_pos hbb']
      rw [List.getLast?_concat]
      simp [objSet]
    · simp [jget]

/-- C7, witness: the theorem at a concrete template with image header,
footer, body examples, and a URL button whose value holds a numeric
placeholder. -/
theorem c7_witness :
    ((createTemplateComponents "Hello \x7b\x7b1\x7d\x7d" (some "IMAGE") none
        (some "https://e.com/h.png") (some "Bye") (some "URL") (some "Shop")
        (some "https://s.co/\x7b\x7b1\x7d\x7d") (some ["Ana"])).map compTypeStr =
      (if truthyStr (some "IMAGE") then ["HEADER"] else []) ++ ["BODY"] ++
      (if truthyStr (some "Bye") then ["FOOTER"] else []) ++
      (if truthyStr (some "URL") && truthyStr (some "Shop") then ["BUTTONS"] else [])) ∧
    (truthyStr (some "Shop") = true) ∧
    ("https://s.co/\x7b\x7b1\x7d\x7d" ≠ "") ∧
    (containsBB "https://s.co/\x7b\x7b1\x7d\x7d".data = true) ∧
    (∃ btn, (createTemplateComponents "Hello \x7b\x7b1\x7d\x7d" (some "IMAGE") none
        (some "https://e.com/h.png") (some "Bye") (some "URL") (some "Shop")
        (some "https://s.co/\x7b\x7b1\x7d\x7d") (some ["Ana"])).getLast? =
      some (Json.obj [("type", Json.str "BUTTONS"), ("buttons", Json.arr [Json.obj btn])]) ∧
      jget btn "example" =
        some (Json.arr [Json.str (replacePlaceholders "https://s.co/\x7b\x7b1\x7d\x7d")])) :=
  ⟨(c7_template_order_and_button_example "Hello \x7b\x7b1\x7d\x7d" (some "IMAGE") none
      (some "https://e.com/h.png") (some "Bye") (some "URL") (some "Shop")
      (some "https://s.co/\x7b\x7b1\x7d\x7d") (some ["Ana"])).1,
    by decide, by decide, by decide,
    (c7_template_order_and_button_example "Hello \x7b\x7b1\x7d\x7d" (some "IMAGE") none
      (some "https://e.com/h.png") (some "Bye") (some "URL") (some "Shop")
      (some "https://s.co/\x7b\x7b1\x7d\x7d") (some ["Ana"])).2
      "https://s.co/\x7b\x7b1\x7d\x7d" rfl (by decide) rfl (by decide) (by decide)⟩
